import Mathlib

/-!
# Verification of the aura-score dashboard

A shallow embedding of the scoring, sorting, tiering and pagination logic of
the `aura-score` repository (components `Dashboard`, `InfrastructureComparison`
and `BuilderLeaderboard`), together with theorems settling the specification
claims about it.

Modelling conventions:
* JavaScript numbers that hold monetary inputs are modelled as exact rationals
  (`ℚ`); the transcendental score computation (`Math.log10`, `Math.log2`) is
  modelled over the reals (`ℝ`).
* `Math.round` is floor of `x + 1/2`, which is exactly the JavaScript
  semantics (halves round towards positive infinity).
* The `Infinity` sentinel produced for bootstrapped profitable projects is
  modelled by a dedicated constructor of `AuraScore`, finite scores by an
  integer (every finite score the code produces is an integer).
* `Array.prototype.sort` (stable since ES2019) is modelled by the stable
  `List.insertionSort` on the preorder `comparator a b ≤ 0`; all comparators
  in the repository are consistent, so any stable sort yields the same list.
* `Array.prototype.slice` is modelled by `jsSlice`, including the semantics
  for negative and out-of-range arguments, which the tier computation hits.
* `String.prototype.localeCompare` is modelled as the sign of lexicographic
  string comparison.
-/

/-- The closed category set of `CryptoProject.category`
(`src/unnamed/part_000`, line 16). -/
inductive Category where
  | L1
  | L2
  | L3
  | Application
  | dApp
  | Stablecoins
deriving DecidableEq, Repr

/-- The `CryptoProject` input record (`src/unnamed/part_000` lines 14-23 and
`InfrastructureComparison.tsx` lines 8-20; this is the union of the two
interfaces, the score never reads the fields that differ).  Optional fields
are `Option ℚ`. -/
structure CryptoProject where
  name : String
  category : Category
  secondaryCategory : Option String := none
  amountRaised : ℚ
  dailyRevenue : Option ℚ := none
  dailyAppFees : Option ℚ := none
  annualizedRevenue : Option ℚ := none
  annualizedAppFees : Option ℚ := none
  fdv : Option ℚ := none
  returnVsFunding : Option ℚ := none
  returnSinceTGE : Option ℚ := none
deriving DecidableEq, Repr

/-- Models the JavaScript defaulting idiom `x || 0` applied to an optional
numeric field: an absent value (and the falsy value `0` itself) becomes `0`. -/
def orZero (o : Option ℚ) : ℚ :=
  match o with
  | none => 0
  | some v => v

/-- Models the category test of `src/unnamed/part_000` line 45: the category
is Application, dApp or Stablecoins. -/
def isAppCategory (c : Category) : Bool :=
  c == Category.Application || c == Category.dApp || c == Category.Stablecoins

/-- Weighted annual revenue (`src/unnamed/part_000` lines 38-54): apps keep
native revenue at weight 1; infrastructure adds ecosystem app fees at
weight `0.7`. -/
def weightedAnnualRevenue (p : CryptoProject) : ℚ :=
  let annualizedRevenue := orZero p.annualizedRevenue
  let annualizedAppFees := orZero p.annualizedAppFees
  if isAppCategory p.category then
    annualizedRevenue * 1
  else
    annualizedRevenue * 1 + annualizedAppFees * (7 / 10)

/-- An aura score is either the `Infinity` sentinel or a finite integer. -/
inductive AuraScore where
  | inf
  | fin (score : ℤ)
deriving DecidableEq, Repr

/-- JavaScript `Math.round`: floor of `x + 1/2` (halves go up). -/
noncomputable def jsRound (x : ℝ) : ℤ :=
  ⌊x + 1 / 2⌋

/-- Band formula for `0 < ratio < 0.001`
(`src/unnamed/part_000` line 74): `Math.log10(rawRatio * 1000) * 200 - 800`. -/
noncomputable def band1Val (r : ℝ) : ℝ :=
  Real.logb 10 (r * 1000) * 200 - 800

/-- Band formula for `0.001 ≤ ratio < 0.01`
(`src/unnamed/part_000` line 77): `Math.log10(rawRatio * 100) * 150 - 200`. -/
noncomputable def band2Val (r : ℝ) : ℝ :=
  Real.logb 10 (r * 100) * 150 - 200

/-- Band formula for `0.01 ≤ ratio < 0.1`
(`src/unnamed/part_000` line 80): `Math.log10(rawRatio * 10) * 200 + 200`. -/
noncomputable def band3Val (r : ℝ) : ℝ :=
  Real.logb 10 (r * 10) * 200 + 200

/-- Band formula for `0.1 ≤ ratio < 1`
(`src/unnamed/part_000` line 83): `Math.log10(rawRatio) * 300 + 700`. -/
noncomputable def band4Val (r : ℝ) : ℝ :=
  Real.logb 10 r * 300 + 700

/-- Band formula for `1 ≤ ratio < 10`
(`src/unnamed/part_000` line 86): `Math.log2(rawRatio) * 400 + 700`. -/
noncomputable def band5Val (r : ℝ) : ℝ :=
  Real.logb 2 r * 400 + 700

/-- Band formula for `10 ≤ ratio < 100`
(`src/unnamed/part_000` line 89): `Math.log2(rawRatio / 10) * 600 + 2000`. -/
noncomputable def band6Val (r : ℝ) : ℝ :=
  Real.logb 2 (r / 10) * 600 + 2000

/-- Band formula for `ratio ≥ 100`
(`src/unnamed/part_000` line 92): `Math.log2(rawRatio / 100) * 1000 + 5000`. -/
noncomputable def band7Val (r : ℝ) : ℝ :=
  Real.logb 2 (r / 100) * 1000 + 5000

/-- The unrounded piecewise score of a funded project as a function of
`rawRatio` (`src/unnamed/part_000` lines 69-93). -/
noncomputable def unroundedScore (r : ℚ) : ℝ :=
  if r ≤ 0 then -1000
  else if r < 1 / 1000 then band1Val r
  else if r < 1 / 100 then band2Val r
  else if r < 1 / 10 then band3Val r
  else if r < 1 then band4Val r
  else if r < 10 then band5Val r
  else if r < 100 then band6Val r
  else band7Val r

/-- Embeds `calculateAuraScore` of the `Dashboard` component
(`src/unnamed/part_000` lines 37-103), reduced to the score it attaches. -/
noncomputable def calculateAuraScore (p : CryptoProject) : AuraScore :=
  let weightedRevenue := weightedAnnualRevenue p
  if p.amountRaised = 0 then
    if 0 < weightedRevenue then AuraScore.inf else AuraScore.fin 0
  else
    AuraScore.fin (jsRound (unroundedScore (weightedRevenue / p.amountRaised)))

/-- A project together with its aura score (`ProjectWithAuraScore`). -/
structure ProjectWithAuraScore where
  project : CryptoProject
  auraScore : AuraScore
deriving DecidableEq, Repr

/-- Version of `calculateAuraScore` returning the extended record, as in the
source. -/
noncomputable def scoreProject (p : CryptoProject) : ProjectWithAuraScore :=
  ⟨p, calculateAuraScore p⟩

/-- The sort comparator of `sortedProjects` (`src/unnamed/part_000`
lines 136-142): `Infinity` ties are equal, `Infinity` sorts first, finite
scores sort descending via `b.auraScore - a.auraScore`. -/
def auraComparator (a b : AuraScore) : ℤ :=
  match a, b with
  | AuraScore.inf, AuraScore.inf => 0
  | AuraScore.inf, AuraScore.fin _ => -1
  | AuraScore.fin _, AuraScore.inf => 1
  | AuraScore.fin x, AuraScore.fin y => y - x

/-- The comparator-induced preorder used to model the stable JS sort. -/
def auraLE (a b : ProjectWithAuraScore) : Prop :=
  auraComparator a.auraScore b.auraScore ≤ 0

instance : DecidableRel auraLE := fun a b =>
  inferInstanceAs (Decidable (auraComparator a.auraScore b.auraScore ≤ 0))

/-- Embeds `projects.map(calculateAuraScore).sort(comparator)`
(`src/unnamed/part_000` lines 133-142). -/
noncomputable def sortedProjects (l : List CryptoProject) : List ProjectWithAuraScore :=
  List.insertionSort auraLE (l.map scoreProject)

namespace IC

/-- Weighted annual revenue as written in the second implementation,
`InfrastructureComparison.tsx` lines 120-136. -/
def weightedAnnualRevenue (p : CryptoProject) : ℚ :=
  let annualizedRevenue := orZero p.annualizedRevenue
  let annualizedAppFees := orZero p.annualizedAppFees
  if isAppCategory p.category then
    annualizedRevenue * 1
  else
    annualizedRevenue * 1 + annualizedAppFees * (7 / 10)

/-- The unrounded piecewise score as written in the second implementation,
`InfrastructureComparison.tsx` lines 151-175. -/
noncomputable def unroundedScore (r : ℚ) : ℝ :=
  if r ≤ 0 then -1000
  else if r < 1 / 1000 then Real.logb 10 (r * 1000) * 200 - 800
  else if r < 1 / 100 then Real.logb 10 (r * 100) * 150 - 200
  else if r < 1 / 10 then Real.logb 10 (r * 10) * 200 + 200
  else if r < 1 then Real.logb 10 r * 300 + 700
  else if r < 10 then Real.logb 2 r * 400 + 700
  else if r < 100 then Real.logb 2 (r / 10) * 600 + 2000
  else Real.logb 2 (r / 100) * 1000 + 5000

/-- Embeds `calculateAuraScore` of the `InfrastructureComparison` component
(`InfrastructureComparison.tsx` lines 119-185), reduced to the score. -/
noncomputable def calculateAuraScore (p : CryptoProject) : AuraScore :=
  let weightedRevenue := IC.weightedAnnualRevenue p
  if p.amountRaised = 0 then
    if 0 < weightedRevenue then AuraScore.inf else AuraScore.fin 0
  else
    AuraScore.fin (jsRound (IC.unroundedScore (weightedRevenue / p.amountRaised)))

end IC

/-- Models `Array.prototype.slice(start, end)` on lists, with the JavaScript clamping
rules: negative indices count from the end, indices are clamped to
`[0, length]`, and an empty list results when the normalised start is not
below the normalised end. -/
def jsSlice (l : List α) (s e : ℤ) : List α :=
  let n : ℤ := l.length
  let s' : ℤ := if s < 0 then max (n + s) 0 else min s n
  let e' : ℤ := if e < 0 then max (n + e) 0 else min e n
  (l.drop s'.toNat).take (e' - s').toNat

/-- Models `Array.prototype.slice(start)` — slice to the end of the array. -/
def jsSliceFrom (l : List α) (s : ℤ) : List α :=
  jsSlice l s l.length

/-- Embeds `Math.max(1, Math.floor(totalRemaining * 0.2))`
(`InfrastructureComparison.tsx` line 255); for a natural count the float
floor is exact division by 5. -/
def topTierSize (n : ℕ) : ℕ :=
  max 1 (n / 5)

/-- Embeds `Math.max(1, Math.floor(totalRemaining * 0.2))`
(`InfrastructureComparison.tsx` line 256). -/
def cursedTierSize (n : ℕ) : ℕ :=
  max 1 (n / 5)

/-- Embeds `totalRemaining - topTierSize - cursedTierSize`
(`InfrastructureComparison.tsx` line 257); this JavaScript number can be
negative, so it is an integer here. -/
def midTierSize (n : ℕ) : ℤ :=
  (n : ℤ) - topTierSize n - cursedTierSize n

/-- Embeds `remaining.slice(0, topTierSize)` (`InfrastructureComparison.tsx`
line 259). -/
def topTier (remaining : List α) : List α :=
  jsSlice remaining 0 (topTierSize remaining.length)

/-- Embeds `remaining.slice(topTierSize, topTierSize + midTierSize)`
(`InfrastructureComparison.tsx` line 260). -/
def midTier (remaining : List α) : List α :=
  jsSlice remaining (topTierSize remaining.length)
    (topTierSize remaining.length + midTierSize remaining.length)

/-- Embeds `remaining.slice(topTierSize + midTierSize)`
(`InfrastructureComparison.tsx` line 261). -/
def cursedTier (remaining : List α) : List α :=
  jsSliceFrom remaining (topTierSize remaining.length + midTierSize remaining.length)

/-- One row of the builder leaderboard (`BuilderRevenue`); only the fields the
leaderboard logic reads are modelled. -/
structure BuilderRevenue where
  builderCode : String
  builderName : Option String := none
  totalRevenue : ℚ
deriving DecidableEq, Repr

/-- The sortable fields of the leaderboard (`BuilderLeaderboard.tsx`
line 15). -/
inductive SortField where
  | rank
  | builderName
  | totalRevenue
  | auraRank
deriving DecidableEq, Repr

/-- Sort direction (`BuilderLeaderboard.tsx` line 16). -/
inductive SortDirection where
  | asc
  | desc
deriving DecidableEq, Repr

/-- The sorting and paging state of the leaderboard, with its `useState`
defaults (`BuilderLeaderboard.tsx` lines 43-45). -/
structure SortState where
  sortField : SortField
  sortDirection : SortDirection
  currentPage : ℕ
deriving DecidableEq, Repr

/-- Initial leaderboard state: `totalRevenue`, `desc`, page 1. -/
def initialSortState : SortState :=
  ⟨SortField.totalRevenue, SortDirection.desc, 1⟩

/-- Embeds `handleSort` (`BuilderLeaderboard.tsx` lines 48-56): clicking the current
field toggles the direction, a new field starts descending; the page resets
to 1 either way. -/
def handleSort (field : SortField) (st : SortState) : SortState :=
  if st.sortField = field then
    ⟨st.sortField,
      if st.sortDirection = SortDirection.asc then SortDirection.desc
      else SortDirection.asc,
      1⟩
  else
    ⟨field, SortDirection.desc, 1⟩

/-- Models the display name `a.builderName || a.builderCode`, falling back to the
code when the name is absent or the empty string (JS falsiness). -/
def displayName (b : BuilderRevenue) : String :=
  match b.builderName with
  | none => b.builderCode
  | some s => if s = "" then b.builderCode else s

/-- Models `String.prototype.localeCompare` as the sign of lexicographic
comparison. -/
def strCompare (a b : String) : ℤ :=
  if a < b then -1 else if a = b then 0 else 1

/-- Embeds `auraRanks[name] || 999` (`BuilderLeaderboard.tsx` lines 74-75): a missing
entry (or a falsy `0`) becomes 999. -/
def auraRankLookup (ranks : String → Option ℚ) (name : String) : ℚ :=
  match ranks name with
  | none => 999
  | some v => if v = 0 then 999 else v

/-- The comparator captured by `sortedBuilders` (`BuilderLeaderboard.tsx`
lines 58-88).  For `rank` the direction is flipped and revenue compared; for
`builderName` the display names are locale-compared; for `auraRank` the
looked-up ranks are compared; for `totalRevenue` the revenues are compared. -/
def builderComparator (ranks : String → Option ℚ) (field : SortField)
    (dir : SortDirection) (a b : BuilderRevenue) : ℚ :=
  match field with
  | SortField.rank =>
    let aValue := a.totalRevenue
    let bValue := b.totalRevenue
    let effectiveDirection :=
      if dir = SortDirection.asc then SortDirection.desc else SortDirection.asc
    if effectiveDirection = SortDirection.asc then aValue - bValue
    else bValue - aValue
  | SortField.builderName =>
    if dir = SortDirection.asc then
      (strCompare (displayName a) (displayName b) : ℚ)
    else
      (strCompare (displayName b) (displayName a) : ℚ)
  | SortField.auraRank =>
    let aValue := auraRankLookup ranks (displayName a)
    let bValue := auraRankLookup ranks (displayName b)
    if dir = SortDirection.asc then aValue - bValue else bValue - aValue
  | SortField.totalRevenue =>
    if dir = SortDirection.asc then a.totalRevenue - b.totalRevenue
    else b.totalRevenue - a.totalRevenue

/-- The comparator-induced preorder used to model the stable JS sort. -/
def builderLE (ranks : String → Option ℚ) (field : SortField)
    (dir : SortDirection) (a b : BuilderRevenue) : Prop :=
  builderComparator ranks field dir a b ≤ 0

instance (ranks : String → Option ℚ) (field : SortField) (dir : SortDirection) :
    DecidableRel (builderLE ranks field dir) := fun a b =>
  inferInstanceAs (Decidable (builderComparator ranks field dir a b ≤ 0))

/-- Embeds `[...builders].sort(comparator)` (`BuilderLeaderboard.tsx` lines 58-88). -/
def sortedBuilders (ranks : String → Option ℚ) (field : SortField)
    (dir : SortDirection) (builders : List BuilderRevenue) : List BuilderRevenue :=
  List.insertionSort (builderLE ranks field dir) builders

/-- Embeds `itemsPerPage = 10` (`BuilderLeaderboard.tsx` line 46). -/
def itemsPerPage : ℕ := 10

/-- Embeds `Math.ceil(sortedBuilders.length / itemsPerPage)`
(`BuilderLeaderboard.tsx` line 90). -/
def totalPages (builders : List BuilderRevenue) : ℕ :=
  (builders.length + itemsPerPage - 1) / itemsPerPage

/-- Embeds `sortedBuilders.slice((currentPage - 1) * itemsPerPage,
currentPage * itemsPerPage)` (`BuilderLeaderboard.tsx` lines 91-94). -/
def paginatedBuilders (builders : List BuilderRevenue) (currentPage : ℕ) :
    List BuilderRevenue :=
  jsSlice builders (((currentPage : ℤ) - 1) * itemsPerPage)
    ((currentPage : ℤ) * itemsPerPage)

/-- The rank shown in a row: `(currentPage - 1) * itemsPerPage + index + 1`
(`BuilderLeaderboard.tsx` line 154) — the position in the current sort
order. -/
def displayedRank (currentPage index : ℕ) : ℕ :=
  (currentPage - 1) * itemsPerPage + index + 1

/-- Models the Next button disabled condition, which compares the current
page against the page total (`BuilderLeaderboard.tsx` line 284). -/
def nextDisabled (builders : List BuilderRevenue) (currentPage : ℕ) : Bool :=
  currentPage == totalPages builders

/-! ## Numeric helper lemmas -/

lemma rpow_div_le_of_pow_le {b c : ℝ} (hb : 0 ≤ b) (hc : 0 ≤ c) {p q : ℕ}
    (hq : q ≠ 0) (h : b ^ p ≤ c ^ q) : b ^ ((p : ℝ) / (q : ℝ)) ≤ c := by
  apply le_of_pow_le_pow_left₀ hq hc
  have h1 : (b ^ ((p : ℝ) / (q : ℝ))) ^ q = b ^ p := by
    rw [← Real.rpow_natCast (b ^ ((p : ℝ) / (q : ℝ))) q, ← Real.rpow_mul hb,
      div_mul_cancel₀ _ (by exact_mod_cast hq : ((q : ℝ)) ≠ 0), Real.rpow_natCast]
  rw [h1]
  exact h

lemma le_rpow_div_of_pow_le {b c : ℝ} (hb : 0 ≤ b) {p q : ℕ}
    (hq : q ≠ 0) (h : c ^ q ≤ b ^ p) : c ≤ b ^ ((p : ℝ) / (q : ℝ)) := by
  apply le_of_pow_le_pow_left₀ hq (Real.rpow_nonneg hb _)
  have h1 : (b ^ ((p : ℝ) / (q : ℝ))) ^ q = b ^ p := by
    rw [← Real.rpow_natCast (b ^ ((p : ℝ) / (q : ℝ))) q, ← Real.rpow_mul hb,
      div_mul_cancel₀ _ (by exact_mod_cast hq : ((q : ℝ)) ≠ 0), Real.rpow_natCast]
  rw [h1]
  exact h

lemma lt_rpow_div_of_pow_lt {b c : ℝ} (hb : 0 ≤ b) {p q : ℕ}
    (hq : q ≠ 0) (h : c ^ q < b ^ p) : c < b ^ ((p : ℝ) / (q : ℝ)) := by
  apply lt_of_pow_lt_pow_left₀ q (Real.rpow_nonneg hb _)
  have h1 : (b ^ ((p : ℝ) / (q : ℝ))) ^ q = b ^ p := by
    rw [← Real.rpow_natCast (b ^ ((p : ℝ) / (q : ℝ))) q, ← Real.rpow_mul hb,
      div_mul_cancel₀ _ (by exact_mod_cast hq : ((q : ℝ)) ≠ 0), Real.rpow_natCast]
  rw [h1]
  exact h

lemma one_lt_ten : (1 : ℝ) < 10 := by norm_num

lemma logb10_tenth : Real.logb 10 (1 / 10 : ℝ) = -1 := by
  rw [one_div, Real.logb_inv, Real.logb_self_eq_one one_lt_ten]

lemma logb2_lb_ninePointSix : (2601 : ℝ) / 800 ≤ Real.logb 2 (48 / 5) := by
  rw [Real.le_logb_iff_rpow_le one_lt_two (by norm_num)]
  exact rpow_div_le_of_pow_le (by norm_num) (by norm_num) (by norm_num)
    (by norm_num)

lemma logb10_seventeen_lb : (737 : ℝ) / 600 ≤ Real.logb 10 17 := by
  rw [Real.le_logb_iff_rpow_le one_lt_ten (by norm_num)]
  exact rpow_div_le_of_pow_le (by norm_num) (by norm_num) (by norm_num)
    (by norm_num)

lemma logb10_seventeen_ub : Real.logb 10 17 < (739 : ℝ) / 600 := by
  rw [Real.logb_lt_iff_lt_rpow one_lt_ten (by norm_num)]
  exact lt_rpow_div_of_pow_lt (by norm_num) (by norm_num) (by norm_num)

lemma logb2_ten_ub : Real.logb 2 (10 : ℝ) ≤ (10 : ℝ) / 3 := by
  rw [Real.logb_le_iff_le_rpow one_lt_two (by norm_num)]
  exact le_rpow_div_of_pow_le (by norm_num) (by norm_num) (by norm_num)

/-! ## Shape of `unroundedScore` on each band -/

lemma unroundedScore_eq_floorBand {r : ℚ} (h : r ≤ 0) :
    unroundedScore r = -1000 := by
  rw [unroundedScore, if_pos h]

lemma unroundedScore_eq_band1 {r : ℚ} (h0 : 0 < r) (h : r < 1 / 1000) :
    unroundedScore r = band1Val r := by
  rw [unroundedScore, if_neg (not_le.mpr h0), if_pos h]

lemma unroundedScore_eq_band2 {r : ℚ} (h0 : 1 / 1000 ≤ r) (h : r < 1 / 100) :
    unroundedScore r = band2Val r := by
  rw [unroundedScore, if_neg (by linarith : ¬ r ≤ 0), if_neg (not_lt.mpr h0),
    if_pos h]

lemma unroundedScore_eq_band3 {r : ℚ} (h0 : 1 / 100 ≤ r) (h : r < 1 / 10) :
    unroundedScore r = band3Val r := by
  rw [unroundedScore, if_neg (by linarith : ¬ r ≤ 0),
    if_neg (by linarith : ¬ r < 1 / 1000), if_neg (not_lt.mpr h0), if_pos h]

lemma unroundedScore_eq_band4 {r : ℚ} (h0 : 1 / 10 ≤ r) (h : r < 1) :
    unroundedScore r = band4Val r := by
  rw [unroundedScore, if_neg (by linarith : ¬ r ≤ 0),
    if_neg (by linarith : ¬ r < 1 / 1000), if_neg (by linarith : ¬ r < 1 / 100),
    if_neg (not_lt.mpr h0), if_pos h]

lemma unroundedScore_eq_band5 {r : ℚ} (h0 : 1 ≤ r) (h : r < 10) :
    unroundedScore r = band5Val r := by
  rw [unroundedScore, if_neg (by linarith : ¬ r ≤ 0),
    if_neg (by linarith : ¬ r < 1 / 1000), if_neg (by linarith : ¬ r < 1 / 100),
    if_neg (by linarith : ¬ r < 1 / 10), if_neg (not_lt.mpr h0), if_pos h]

lemma unroundedScore_eq_band6 {r : ℚ} (h0 : 10 ≤ r) (h : r < 100) :
    unroundedScore r = band6Val r := by
  rw [unroundedScore, if_neg (by linarith : ¬ r ≤ 0),
    if_neg (by linarith : ¬ r < 1 / 1000), if_neg (by linarith : ¬ r < 1 / 100),
    if_neg (by linarith : ¬ r < 1 / 10), if_neg (by linarith : ¬ r < 1),
    if_neg (not_lt.mpr h0), if_pos h]

lemma unroundedScore_eq_band7 {r : ℚ} (h0 : 100 ≤ r) :
    unroundedScore r = band7Val r := by
  rw [unroundedScore, if_neg (by linarith : ¬ r ≤ 0),
    if_neg (by linarith : ¬ r < 1 / 1000), if_neg (by linarith : ¬ r < 1 / 100),
    if_neg (by linarith : ¬ r < 1 / 10), if_neg (by linarith : ¬ r < 1),
    if_neg (by linarith : ¬ r < 10), if_neg (not_lt.mpr h0)]

/-! ## Monotonicity of each band formula on positive ratios -/

lemma band1Val_mono {r1 r2 : ℝ} (h0 : 0 < r1) (h : r1 ≤ r2) :
    band1Val r1 ≤ band1Val r2 := by
  have hl := Real.logb_le_logb_of_le one_lt_ten
    (by positivity : (0 : ℝ) < r1 * 1000)
    (by linarith : r1 * 1000 ≤ r2 * 1000)
  unfold band1Val
  linarith

lemma band2Val_mono {r1 r2 : ℝ} (h0 : 0 < r1) (h : r1 ≤ r2) :
    band2Val r1 ≤ band2Val r2 := by
  have hl := Real.logb_le_logb_of_le one_lt_ten
    (by positivity : (0 : ℝ) < r1 * 100)
    (by linarith : r1 * 100 ≤ r2 * 100)
  unfold band2Val
  linarith

lemma band3Val_mono {r1 r2 : ℝ} (h0 : 0 < r1) (h : r1 ≤ r2) :
    band3Val r1 ≤ band3Val r2 := by
  have hl := Real.logb_le_logb_of_le one_lt_ten
    (by positivity : (0 : ℝ) < r1 * 10)
    (by linarith : r1 * 10 ≤ r2 * 10)
  unfold band3Val
  linarith

lemma band4Val_mono {r1 r2 : ℝ} (h0 : 0 < r1) (h : r1 ≤ r2) :
    band4Val r1 ≤ band4Val r2 := by
  have hl := Real.logb_le_logb_of_le one_lt_ten h0 h
  unfold band4Val
  linarith

lemma band5Val_mono {r1 r2 : ℝ} (h0 : 0 < r1) (h : r1 ≤ r2) :
    band5Val r1 ≤ band5Val r2 := by
  have hl := Real.logb_le_logb_of_le one_lt_two h0 h
  unfold band5Val
  linarith

lemma band6Val_mono {r1 r2 : ℝ} (h0 : 0 < r1) (h : r1 ≤ r2) :
    band6Val r1 ≤ band6Val r2 := by
  have hl := Real.logb_le_logb_of_le one_lt_two
    (by positivity : (0 : ℝ) < r1 / 10)
    (by linarith : r1 / 10 ≤ r2 / 10)
  unfold band6Val
  linarith

lemma band7Val_mono {r1 r2 : ℝ} (h0 : 0 < r1) (h : r1 ≤ r2) :
    band7Val r1 ≤ band7Val r2 := by
  have hl := Real.logb_le_logb_of_le one_lt_two
    (by positivity : (0 : ℝ) < r1 / 100)
    (by linarith : r1 / 100 ≤ r2 / 100)
  unfold band7Val
  linarith

/-! ## Range of each band formula -/

lemma band1Val_lt {r : ℝ} (h0 : 0 < r) (h : r < 1 / 1000) :
    band1Val r < -800 := by
  have hneg := Real.logb_neg one_lt_ten
    (by positivity : (0 : ℝ) < r * 1000) (by linarith : r * 1000 < 1)
  unfold band1Val
  linarith

lemma band2Val_lb {r : ℝ} (h0 : 1 / 1000 ≤ r) : -350 ≤ band2Val r := by
  have hl := Real.logb_le_logb_of_le one_lt_ten
    (by norm_num : (0 : ℝ) < 1 / 10) (by linarith : (1 : ℝ) / 10 ≤ r * 100)
  rw [logb10_tenth] at hl
  unfold band2Val
  linarith

lemma band2Val_ub {r : ℝ} (h0 : 0 < r) (h : r < 1 / 100) :
    band2Val r < -200 := by
  have hneg := Real.logb_neg one_lt_ten
    (by positivity : (0 : ℝ) < r * 100) (by linarith : r * 100 < 1)
  unfold band2Val
  linarith

lemma band3Val_lb {r : ℝ} (h0 : 1 / 100 ≤ r) : 0 ≤ band3Val r := by
  have hl := Real.logb_le_logb_of_le one_lt_ten
    (by norm_num : (0 : ℝ) < 1 / 10) (by linarith : (1 : ℝ) / 10 ≤ r * 10)
  rw [logb10_tenth] at hl
  unfold band3Val
  linarith

lemma band3Val_ub {r : ℝ} (h0 : 0 < r) (h : r < 1 / 10) :
    band3Val r < 200 := by
  have hneg := Real.logb_neg one_lt_ten
    (by positivity : (0 : ℝ) < r * 10) (by linarith : r * 10 < 1)
  unfold band3Val
  linarith

lemma band4Val_lb {r : ℝ} (h0 : 1 / 10 ≤ r) : 400 ≤ band4Val r := by
  have hl := Real.logb_le_logb_of_le one_lt_ten
    (by norm_num : (0 : ℝ) < 1 / 10) h0
  rw [logb10_tenth] at hl
  unfold band4Val
  linarith

lemma band4Val_ub {r : ℝ} (h0 : 0 < r) (h : r < 1) : band4Val r < 700 := by
  have hneg := Real.logb_neg one_lt_ten h0 h
  unfold band4Val
  linarith

lemma band5Val_lb {r : ℝ} (h0 : 1 ≤ r) : 700 ≤ band5Val r := by
  have hl := Real.logb_nonneg one_lt_two h0
  unfold band5Val
  linarith

lemma band5Val_ub {r : ℝ} (h0 : 0 < r) (h : r < 10) :
    band5Val r < 6100 / 3 := by
  have hl := Real.logb_lt_logb one_lt_two h0 h
  have h10 := logb2_ten_ub
  unfold band5Val
  linarith

lemma band6Val_lb {r : ℝ} (h0 : 10 ≤ r) : 2000 ≤ band6Val r := by
  have hl := Real.logb_nonneg one_lt_two (by linarith : (1 : ℝ) ≤ r / 10)
  unfold band6Val
  linarith

lemma band6Val_ub {r : ℝ} (h0 : 0 < r) (h : r < 100) :
    band6Val r < 4000 := by
  have hl := Real.logb_lt_logb one_lt_two
    (by positivity : (0 : ℝ) < r / 10) (by linarith : r / 10 < 10)
  have h10 := logb2_ten_ub
  unfold band6Val
  linarith

lemma band7Val_lb {r : ℝ} (h0 : 100 ≤ r) : 5000 ≤ band7Val r := by
  have hl := Real.logb_nonneg one_lt_two (by linarith : (1 : ℝ) ≤ r / 100)
  unfold band7Val
  linarith

/-! ## Cumulative bounds and monotonicity of the piecewise score -/

lemma jsRound_mono {x y : ℝ} (h : x ≤ y) : jsRound x ≤ jsRound y :=
  Int.floor_mono (by linarith)

lemma ratCast_lt_real {a b : ℚ} (h : a < b) : (a : ℝ) < (b : ℝ) :=
  (Rat.cast_lt (K := ℝ)).mpr h

lemma ratCast_le_real {a b : ℚ} (h : a ≤ b) : (a : ℝ) ≤ (b : ℝ) :=
  (Rat.cast_le (K := ℝ)).mpr h

lemma unroundedScore_lt_of_lt_band2 {r : ℚ} (h0 : 0 < r) (h : r < 1 / 1000) :
    unroundedScore r < -800 := by
  rw [unroundedScore_eq_band1 h0 h]
  exact band1Val_lt (by exact_mod_cast h0) (by have := ratCast_lt_real h; push_cast at this; exact this)

lemma unroundedScore_lt_of_lt_band3 {r : ℚ} (h0 : 0 < r) (h : r < 1 / 100) :
    unroundedScore r < -200 := by
  rcases lt_or_le r (1 / 1000) with h1 | h1
  · have := unroundedScore_lt_of_lt_band2 h0 h1
    linarith
  · rw [unroundedScore_eq_band2 h1 h]
    exact band2Val_ub (by exact_mod_cast h0) (by have := ratCast_lt_real h; push_cast at this; exact this)

lemma unroundedScore_lt_of_lt_band4 {r : ℚ} (h0 : 0 < r) (h : r < 1 / 10) :
    unroundedScore r < 200 := by
  rcases lt_or_le r (1 / 100) with h1 | h1
  · have := unroundedScore_lt_of_lt_band3 h0 h1
    linarith
  · rw [unroundedScore_eq_band3 h1 h]
    exact band3Val_ub (by exact_mod_cast h0) (by have := ratCast_lt_real h; push_cast at this; exact this)

lemma unroundedScore_lt_of_lt_band5 {r : ℚ} (h0 : 0 < r) (h : r < 1) :
    unroundedScore r < 700 := by
  rcases lt_or_le r (1 / 10) with h1 | h1
  · have := unroundedScore_lt_of_lt_band4 h0 h1
    linarith
  · rw [unroundedScore_eq_band4 h1 h]
    exact band4Val_ub (by exact_mod_cast h0) (by exact_mod_cast h)

/-- Monotonicity of the piecewise score on ratios below the `ratio = 10`
boundary. -/
lemma unroundedScore_mono_below_ten {r1 r2 : ℚ} (h0 : 0 < r1) (h12 : r1 < r2)
    (h10 : r2 < 10) : unroundedScore r1 ≤ unroundedScore r2 := by
  have h02 : 0 < r2 := lt_trans h0 h12
  have hr0 : (0 : ℝ) < (r1 : ℝ) := by exact_mod_cast h0
  have hr12 : (r1 : ℝ) ≤ (r2 : ℝ) := by exact_mod_cast h12.le
  rcases lt_or_le r2 (1 / 1000) with hb | hb
  · rw [unroundedScore_eq_band1 h0 (lt_trans h12 hb),
      unroundedScore_eq_band1 h02 hb]
    exact band1Val_mono hr0 hr12
  · rcases lt_or_le r2 (1 / 100) with hc | hc
    · rw [unroundedScore_eq_band2 hb hc]
      rcases lt_or_le r1 (1 / 1000) with hd | hd
      · have h1 := unroundedScore_lt_of_lt_band2 h0 hd
        have h2 : (-350 : ℝ) ≤ band2Val (r2 : ℝ) :=
          band2Val_lb (by have := ratCast_le_real hb; push_cast at this; exact this)
        linarith
      · rw [unroundedScore_eq_band2 hd (lt_trans h12 hc)]
        exact band2Val_mono hr0 hr12
    · rcases lt_or_le r2 (1 / 10) with he | he
      · rw [unroundedScore_eq_band3 hc he]
        rcases lt_or_le r1 (1 / 100) with hf | hf
        · have h1 := unroundedScore_lt_of_lt_band3 h0 hf
          have h2 : (0 : ℝ) ≤ band3Val (r2 : ℝ) :=
            band3Val_lb (by have := ratCast_le_real hc; push_cast at this; exact this)
          linarith
        · rw [unroundedScore_eq_band3 hf (lt_trans h12 he)]
          exact band3Val_mono hr0 hr12
      · rcases lt_or_le r2 1 with hg | hg
        · rw [unroundedScore_eq_band4 he hg]
          rcases lt_or_le r1 (1 / 10) with hh | hh
          · have h1 := unroundedScore_lt_of_lt_band4 h0 hh
            have h2 : (400 : ℝ) ≤ band4Val (r2 : ℝ) :=
              band4Val_lb (by have := ratCast_le_real he; push_cast at this; exact this)
            linarith
          · rw [unroundedScore_eq_band4 hh (lt_trans h12 hg)]
            exact band4Val_mono hr0 hr12
        · rw [unroundedScore_eq_band5 hg h10]
          rcases lt_or_le r1 1 with hi | hi
          · have h1 := unroundedScore_lt_of_lt_band5 h0 hi
            have h2 : (700 : ℝ) ≤ band5Val (r2 : ℝ) :=
              band5Val_lb (by exact_mod_cast hg)
            linarith
          · rw [unroundedScore_eq_band5 hi (lt_trans h12 h10)]
            exact band5Val_mono hr0 hr12

/-- Monotonicity of the piecewise score on ratios at or above the
`ratio = 10` boundary. -/
lemma unroundedScore_mono_above_ten {r1 r2 : ℚ} (h0 : 10 ≤ r1)
    (h12 : r1 < r2) : unroundedScore r1 ≤ unroundedScore r2 := by
  have hr0 : (0 : ℝ) < (r1 : ℝ) := by
    have : (0 : ℚ) < r1 := by linarith
    exact_mod_cast this
  have hr12 : (r1 : ℝ) ≤ (r2 : ℝ) := by exact_mod_cast h12.le
  rcases lt_or_le r2 100 with hb | hb
  · rw [unroundedScore_eq_band6 h0 (lt_trans h12 hb),
      unroundedScore_eq_band6 (le_trans h0 h12.le) hb]
    exact band6Val_mono hr0 hr12
  · rw [unroundedScore_eq_band7 hb]
    rcases lt_or_le r1 100 with hc | hc
    · rw [unroundedScore_eq_band6 h0 hc]
      have h1 : band6Val (r1 : ℝ) < 4000 :=
        band6Val_ub hr0 (by exact_mod_cast hc)
      have h2 : (5000 : ℝ) ≤ band7Val (r2 : ℝ) :=
        band7Val_lb (by exact_mod_cast hb)
      linarith
    · rw [unroundedScore_eq_band7 hc]
      exact band7Val_mono hr0 hr12

lemma unroundedScore_ten : unroundedScore 10 = 2000 := by
  rw [unroundedScore_eq_band6 (le_refl 10) (by norm_num)]
  have h1 : (((10 : ℚ) : ℝ)) / 10 = 1 := by
    push_cast
    norm_num
  rw [band6Val, h1, Real.logb_one]
  norm_num

lemma jsRound_ofInt (z : ℤ) : jsRound (z : ℝ) = z := by
  rw [jsRound, Int.floor_eq_iff]
  constructor
  · linarith
  · linarith

lemma unroundedScore_ninePointSix_round :
    2001 ≤ jsRound (unroundedScore (48 / 5)) := by
  rw [unroundedScore_eq_band5 (by norm_num) (by norm_num)]
  have hc : (((48 / 5 : ℚ)) : ℝ) = 48 / 5 := by
    push_cast
    norm_num
  rw [jsRound, Int.le_floor, band5Val, hc]
  have h2 := logb2_lb_ninePointSix
  push_cast
  linarith

/-- C1 (amended): for every project with `amountRaised > 0` the aura score is
monotonically non-decreasing in `ratio = weightedRevenue / amountRaised`
within every piecewise band and across every adjacent band boundary except
the boundary at `ratio = 10`: for all `0 < r1 < r2` with `r2 < 10` or
`10 ≤ r1`, `score(r1) ≤ score(r2)`.  Monotonicity fails across the
`ratio = 10` boundary, where the `1 ≤ ratio < 10` band exceeds the value
2000 that the next band restarts from. -/
theorem auraScore_monotone_off_ten_boundary (r1 r2 : ℚ) (h0 : 0 < r1)
    (h12 : r1 < r2) (hside : r2 < 10 ∨ 10 ≤ r1) :
    jsRound (unroundedScore r1) ≤ jsRound (unroundedScore r2) := by
  rcases hside with h | h
  · exact jsRound_mono (unroundedScore_mono_below_ten h0 h12 h)
  · exact jsRound_mono (unroundedScore_mono_above_ten h h12)

/-- Witness for the amended C1 theorem at the concrete ratios 1 and 2. -/
theorem auraScore_monotone_off_ten_boundary_witness :
    jsRound (unroundedScore 1) ≤ jsRound (unroundedScore 2) :=
  auraScore_monotone_off_ten_boundary 1 2 (by norm_num) (by norm_num)
    (Or.inl (by norm_num))

/-- C1 (counterexample): the aura score is not monotone in the ratio across
the band boundary at `ratio = 10`: the ratio `9.6 = 48/5` is positive and
smaller than 10, yet its rounded score (at least 2001) exceeds the rounded
score 2000 of the ratio 10. -/
theorem auraScore_not_monotone_at_ten_boundary :
    (0 : ℚ) < 48 / 5 ∧ (48 : ℚ) / 5 < 10 ∧
      jsRound (unroundedScore 10) < jsRound (unroundedScore (48 / 5)) := by
  refine ⟨by norm_num, by norm_num, ?_⟩
  have h10 : jsRound (unroundedScore 10) = 2000 := by
    rw [unroundedScore_ten]
    exact_mod_cast jsRound_ofInt 2000
  have h96 := unroundedScore_ninePointSix_round
  omega

/-! ## Concrete score evaluations -/

lemma logb10_hundred : Real.logb 10 (100 : ℝ) = 2 := by
  rw [show (100 : ℝ) = 10 ^ (2 : ℕ) by norm_num, Real.logb_pow,
    Real.logb_self_eq_one one_lt_ten]
  norm_num

lemma logb10_thousand : Real.logb 10 (1000 : ℝ) = 3 := by
  rw [show (1000 : ℝ) = 10 ^ (3 : ℕ) by norm_num, Real.logb_pow,
    Real.logb_self_eq_one one_lt_ten]
  norm_num

/-- The worked `L1` example of the specification: revenue 100, ecosystem fees
100, raised 1000. -/
def exampleL1Project : CryptoProject :=
  ⟨"L1 example", Category.L1, none, 1000, none, none, some 100, some 100,
    none, none, none⟩

lemma weighted_exampleL1 : weightedAnnualRevenue exampleL1Project = 170 := by
  norm_num [weightedAnnualRevenue, orZero, isAppCategory, exampleL1Project]
  decide

lemma score_exampleL1 : calculateAuraScore exampleL1Project = AuraScore.fin 469 := by
  have hnz : ¬ (exampleL1Project.amountRaised = 0) := by
    norm_num [exampleL1Project]
  have hr : weightedAnnualRevenue exampleL1Project / exampleL1Project.amountRaised
      = 17 / 100 := by
    rw [weighted_exampleL1]
    norm_num [exampleL1Project]
  simp only [calculateAuraScore, if_neg hnz, hr]
  congr 1
  rw [unroundedScore_eq_band4 (by norm_num) (by norm_num)]
  have hc : (((17 / 100 : ℚ)) : ℝ) = 17 / 100 := by
    push_cast
    norm_num
  rw [band4Val, hc, Real.logb_div (by norm_num) (by norm_num), logb10_hundred]
  rw [jsRound, Int.floor_eq_iff]
  have hlb := logb10_seventeen_lb
  have hub := logb10_seventeen_ub
  constructor
  · push_cast
    linarith
  · push_cast
    linarith

/-- C2 (counterexample): on the input `category = L1`, `annualizedRevenue =
100`, `annualizedAppFees = 100`, `amountRaised = 1000` the code returns the
aura score 469, not the claimed 525 (the unrounded value is
`log10(0.17)·300 + 700 ≈ 469.13`, not `524.5`). -/
theorem auraScore_L1_example_not_525 :
    calculateAuraScore exampleL1Project = AuraScore.fin 469 ∧
      AuraScore.fin 469 ≠ AuraScore.fin 525 :=
  ⟨score_exampleL1, by simp⟩

/-- C2 (amended): for the input project with `category = L1`,
`annualizedRevenue = 100`, `annualizedAppFees = 100`, `amountRaised = 1000`,
`calculateAuraScore` computes `weightedRevenue = 170` and `ratio = 0.17`, and
returns `auraScore = round(log10(0.17)·300 + 700) = round(469.13…) = 469`. -/
theorem auraScore_L1_example_evaluates :
    weightedAnnualRevenue exampleL1Project = 170 ∧
      weightedAnnualRevenue exampleL1Project / exampleL1Project.amountRaised
          = 17 / 100 ∧
      calculateAuraScore exampleL1Project
          = AuraScore.fin (jsRound (band4Val (17 / 100))) ∧
      calculateAuraScore exampleL1Project = AuraScore.fin 469 := by
  have hr : weightedAnnualRevenue exampleL1Project / exampleL1Project.amountRaised
      = 17 / 100 := by
    rw [weighted_exampleL1]
    norm_num [exampleL1Project]
  refine ⟨weighted_exampleL1, hr, ?_, score_exampleL1⟩
  have hnz : ¬ (exampleL1Project.amountRaised = 0) := by
    norm_num [exampleL1Project]
  simp only [calculateAuraScore, if_neg hnz, hr]
  congr 2
  rw [unroundedScore_eq_band4 (by norm_num) (by norm_num)]
  congr 1
  push_cast
  norm_num

/-- The worked `Application` example of the specification: revenue 50, app
fees 1000, raised 500. -/
def exampleAppProject : CryptoProject :=
  ⟨"App example", Category.Application, none, 500, none, none, some 50,
    some 1000, none, none, none⟩

/-- C5: for the `Application` project with revenue 50, ecosystem fees 1000
and `amountRaised = 500`, the app fees are ignored (`weightedRevenue = 50`),
the ratio `0.1` sits exactly on a band boundary, and the score comes from the
`[0.1, 1)` band formula, which gives 400 — not from the `[0.01, 0.1)` band
formula, which would give 200 there. -/
theorem appProject_boundary_band :
    weightedAnnualRevenue exampleAppProject = 50 ∧
      weightedAnnualRevenue exampleAppProject / exampleAppProject.amountRaised
          = 1 / 10 ∧
      calculateAuraScore exampleAppProject = AuraScore.fin 400 ∧
      band4Val (1 / 10) = 400 ∧
      band3Val (1 / 10) = 200 := by
  have hw : weightedAnnualRevenue exampleAppProject = 50 := by
    norm_num [weightedAnnualRevenue, orZero, isAppCategory, exampleAppProject]
  have hr : weightedAnnualRevenue exampleAppProject / exampleAppProject.amountRaised
      = 1 / 10 := by
    rw [hw]
    norm_num [exampleAppProject]
  have hb4 : band4Val (1 / 10) = 400 := by
    rw [band4Val, logb10_tenth]
    norm_num
  have hb3 : band3Val (1 / 10) = 200 := by
    rw [band3Val, show ((1 : ℝ) / 10) * 10 = 1 by norm_num, Real.logb_one]
    norm_num
  refine ⟨hw, hr, ?_, hb4, hb3⟩
  have hnz : ¬ (exampleAppProject.amountRaised = 0) := by
    norm_num [exampleAppProject]
  simp only [calculateAuraScore, if_neg hnz, hr]
  congr 1
  rw [unroundedScore_eq_band4 (by norm_num) (by norm_num)]
  have hc : (((1 / 10 : ℚ)) : ℝ) = 1 / 10 := by
    push_cast
    norm_num
  rw [band4Val, hc, logb10_tenth]
  rw [show (-1 : ℝ) * 300 + 700 = ((400 : ℤ) : ℝ) by norm_num]
  exact jsRound_ofInt 400

/-! ## Band output ranges, bootstrapped projects, implementation agreement -/

/-- C3 (counterexample): the first in-particular statement fails — at
`ratio = 1/10000` the first band formula evaluates to `-1000`, which is not
in `[-800, -200)` — and so does the second: at `ratio = 9.6` (which satisfies
`1 ≤ ratio < 10`) the fifth band formula exceeds 2000. -/
theorem bandRanges_counterexample :
    band1Val (1 / 10000) = -1000 ∧ ¬ ((-800 : ℝ) ≤ band1Val (1 / 10000)) ∧
      (1 : ℝ) ≤ 48 / 5 ∧ (48 : ℝ) / 5 < 10 ∧ 2000 < band5Val (48 / 5) := by
  have h1 : band1Val (1 / 10000) = -1000 := by
    rw [band1Val, show ((1 : ℝ) / 10000) * 1000 = 1 / 10 by norm_num,
      logb10_tenth]
    norm_num
  have h5 : (2000 : ℝ) < band5Val (48 / 5) := by
    have := logb2_lb_ninePointSix
    rw [band5Val]
    linarith
  exact ⟨h1, by rw [h1]; norm_num, by norm_num, by norm_num, h5⟩

/-- C3 (amended): for every ratio with `0 < ratio < 0.001` the value
`log10(ratio·1000)·200 - 800` lies in `(-∞, -800)` (strictly below the band
stated in the table), and for every ratio with `1 ≤ ratio < 10` the value
`log2(ratio)·400 + 700` lies in `[700, 6100/3)` (about `[700, 2033.4)`,
exceeding 2000 for ratios close to 10). -/
theorem bandRanges_amended :
    (∀ r : ℝ, 0 < r → r < 1 / 1000 → band1Val r < -800) ∧
      (∀ r : ℝ, 1 ≤ r → r < 10 → 700 ≤ band5Val r ∧ band5Val r < 6100 / 3) :=
  ⟨fun _ h0 h1 => band1Val_lt h0 h1,
   fun _ h0 h1 => ⟨band5Val_lb h0, band5Val_ub (by linarith) h1⟩⟩

/-- Witness for the amended C3 theorem at the ratios `1/2000` and `2`. -/
theorem bandRanges_amended_witness :
    band1Val (1 / 2000) < -800 ∧
      (700 ≤ band5Val 2 ∧ band5Val 2 < 6100 / 3) :=
  ⟨bandRanges_amended.1 (1 / 2000) (by norm_num) (by norm_num),
   bandRanges_amended.2 2 (by norm_num) (by norm_num)⟩

/-- C6: the two `calculateAuraScore` implementations (the `Dashboard` one and
the `InfrastructureComparison` one) are extensionally equal: they return the
same aura score on every project input. -/
theorem calculateAuraScore_implementations_agree :
    ∀ p : CryptoProject, calculateAuraScore p = IC.calculateAuraScore p :=
  fun _ => rfl

instance : IsTotal ProjectWithAuraScore auraLE :=
  ⟨fun a b => by
    cases ha : a.auraScore <;> cases hb : b.auraScore <;>
      simp [auraLE, auraComparator, ha, hb] <;> omega⟩

instance : IsTrans ProjectWithAuraScore auraLE :=
  ⟨fun a b c hab hbc => by
    cases ha : a.auraScore <;> cases hb : b.auraScore <;>
        cases hc : c.auraScore <;>
      simp_all [auraLE, auraComparator] <;> omega⟩

/-- C4: for every project with `amountRaised = 0`, `calculateAuraScore`
returns the positive-infinity sentinel when the weighted revenue is positive
and exactly `0` when the weighted revenue is zero (with no rounding in either
case), and in every sorted ranking each infinity entry precedes every entry
with a finite score. -/
theorem bootstrappedScore_and_ranking :
    (∀ p : CryptoProject, p.amountRaised = 0 →
        (0 < weightedAnnualRevenue p → calculateAuraScore p = AuraScore.inf) ∧
          (weightedAnnualRevenue p = 0 → calculateAuraScore p = AuraScore.fin 0)) ∧
      ∀ l : List CryptoProject,
        (sortedProjects l).Pairwise
          (fun a b => b.auraScore = AuraScore.inf → a.auraScore = AuraScore.inf) := by
  constructor
  · intro p h
    constructor
    · intro hw
      simp only [calculateAuraScore, if_pos h, if_pos hw]
    · intro hw
      simp only [calculateAuraScore, if_pos h, hw, lt_irrefl, if_false]
  · intro l
    have hs := List.sorted_insertionSort auraLE (l.map scoreProject)
    refine List.Pairwise.imp ?_ hs
    intro a b hab hbinf
    cases ha : a.auraScore with
    | inf => rfl
    | fin x => simp [auraLE, auraComparator, ha, hbinf] at hab

/-- A bootstrapped profitable project: no capital raised, revenue 100. -/
def bootstrappedProject : CryptoProject :=
  ⟨"Bootstrapped", Category.Application, none, 0, none, none, some 100, none,
    none, none, none⟩

/-- Witness for C4: the bootstrapped project with revenue 100 gets the
infinity sentinel. -/
theorem bootstrappedScore_and_ranking_witness :
    calculateAuraScore bootstrappedProject = AuraScore.inf :=
  (bootstrappedScore_and_ranking.1 bootstrappedProject rfl).1
    (by norm_num [weightedAnnualRevenue, orZero, isAppCategory,
      bootstrappedProject])

/-- A funded project whose ratio is one millionth: revenue 1, raised a
million. -/
def microRatioProject : CryptoProject :=
  ⟨"Micro ratio", Category.L1, none, 1000000, none, none, some 1, none,
    none, none, none⟩

/-- C10 (counterexample): a funded project with non-negative revenue can
score below `-1000`: with revenue 1 and `amountRaised = 1000000` the ratio is
`10⁻⁶` and the score is `-1400`. -/
theorem fundedScore_below_neg1000 :
    calculateAuraScore microRatioProject = AuraScore.fin (-1400) ∧
      ¬ ((-1000 : ℤ) ≤ -1400) := by
  constructor
  · have hnz : ¬ (microRatioProject.amountRaised = 0) := by
      norm_num [microRatioProject]
    have hw : weightedAnnualRevenue microRatioProject = 1 := by
      norm_num [weightedAnnualRevenue, orZero, isAppCategory, microRatioProject]
    have hr : weightedAnnualRevenue microRatioProject /
        microRatioProject.amountRaised = 1 / 1000000 := by
      rw [hw]
      norm_num [microRatioProject]
    simp only [calculateAuraScore, if_neg hnz, hr]
    congr 1
    rw [unroundedScore_eq_band1 (by norm_num) (by norm_num)]
    have hc : (((1 / 1000000 : ℚ)) : ℝ) * 1000 = (1000 : ℝ)⁻¹ := by
      push_cast
      norm_num
    rw [band1Val, hc, Real.logb_inv, logb10_thousand]
    rw [show (-(3 : ℝ)) * 200 - 800 = ((-1400 : ℤ) : ℝ) by norm_num]
    exact jsRound_ofInt (-1400)
  · norm_num

/-- C10 (amended): for every project with `amountRaised > 0` and non-negative
revenue and fees, `calculateAuraScore` returns a finite value (never the
infinity sentinel), and it returns `-1000` whenever the weighted revenue is
zero; however the score is not bounded below by `-1000` in general, and
`-1000` can also be attained with positive weighted revenue. -/
theorem fundedScore_finite (p : CryptoProject) (h : 0 < p.amountRaised)
    (hrev : 0 ≤ orZero p.annualizedRevenue)
    (hfees : 0 ≤ orZero p.annualizedAppFees) :
    (∃ z : ℤ, calculateAuraScore p = AuraScore.fin z) ∧
      (weightedAnnualRevenue p = 0 →
        calculateAuraScore p = AuraScore.fin (-1000)) := by
  have hnz : ¬ (p.amountRaised = 0) := by
    exact ne_of_gt h
  constructor
  · exact ⟨jsRound (unroundedScore (weightedAnnualRevenue p / p.amountRaised)),
      by simp only [calculateAuraScore, if_neg hnz]⟩
  · intro hw
    simp only [calculateAuraScore, if_neg hnz, hw, zero_div]
    rw [unroundedScore_eq_floorBand (le_refl 0)]
    rw [show (-1000 : ℝ) = ((-1000 : ℤ) : ℝ) by norm_num]
    congr 1
    exact jsRound_ofInt (-1000)

/-- A funded project with no revenue at all. -/
def zeroRevenueProject : CryptoProject :=
  ⟨"Zero revenue", Category.L1, none, 1, none, none, none, none,
    none, none, none⟩

/-- Witness for C10: the zero-revenue funded project scores `-1000`. -/
theorem fundedScore_finite_witness :
    calculateAuraScore zeroRevenueProject = AuraScore.fin (-1000) :=
  (fundedScore_finite zeroRevenueProject (by norm_num [zeroRevenueProject])
      (by norm_num [zeroRevenueProject, orZero])
      (by norm_num [zeroRevenueProject, orZero])).2
    (by norm_num [weightedAnnualRevenue, orZero, isAppCategory,
      zeroRevenueProject])

/-! ## Slices, tiers, pagination, leaderboard sorting -/

lemma jsSlice_clamp (l : List α) (s e : ℕ) (hs : s ≤ l.length) :
    jsSlice l (s : ℤ) (e : ℤ) = (l.drop s).take (min e l.length - s) := by
  simp only [jsSlice]
  rw [if_neg (by omega : ¬ ((s : ℤ) < 0)), if_neg (by omega : ¬ ((e : ℤ) < 0))]
  have h1 : (min (s : ℤ) (l.length : ℤ)).toNat = s := by omega
  have h2 : (min (e : ℤ) (l.length : ℤ) - min (s : ℤ) (l.length : ℤ)).toNat
      = min e l.length - s := by omega
  rw [h1, h2]

lemma tierSizes_le {n : ℕ} (h : 2 ≤ n) :
    topTierSize n + cursedTierSize n ≤ n := by
  rcases Nat.lt_or_ge n 5 with h5 | h5
  · have h0 : n / 5 = 0 := Nat.div_eq_of_lt h5
    simp [topTierSize, cursedTierSize, h0]
    omega
  · have h1 : 1 ≤ n / 5 := (Nat.one_le_div_iff (by norm_num)).mpr h5
    have hmax : max 1 (n / 5) = n / 5 := max_eq_right h1
    simp [topTierSize, cursedTierSize, hmax]
    omega

/-- C8 (amended): whenever the remainder after the top 3 has at least two
projects, the three tiers partition it: their concatenation is the remainder
and the tier lengths add up to its length.  For a singleton remainder the
partition fails (see the counterexample): the mid-tier size is `-1` and the
single project lands in both the top tier and the cursed tier. -/
theorem tierPartition_of_remainder_ge_two {α : Type} (l : List α)
    (h : 2 ≤ l.length) :
    topTier l ++ midTier l ++ cursedTier l = l ∧
      (topTier l).length + (midTier l).length + (cursedTier l).length
        = l.length := by
  have hts : topTierSize l.length + cursedTierSize l.length ≤ l.length :=
    tierSizes_le h
  have ht : topTierSize l.length ≤ l.length := by omega
  have e1 : topTier l = l.take (topTierSize l.length) := by
    rw [topTier, show (0 : ℤ) = ((0 : ℕ) : ℤ) from rfl,
      jsSlice_clamp l 0 (topTierSize l.length) (by omega)]
    simp [min_eq_left ht]
  have harg : ((topTierSize l.length : ℕ) : ℤ) + midTierSize l.length
      = ((l.length - cursedTierSize l.length : ℕ) : ℤ) := by
    unfold midTierSize
    omega
  have e2 : midTier l = (l.drop (topTierSize l.length)).take
      (l.length - cursedTierSize l.length - topTierSize l.length) := by
    rw [midTier, harg, jsSlice_clamp l (topTierSize l.length)
      (l.length - cursedTierSize l.length) ht]
    congr 1
    omega
  have e3 : cursedTier l = l.drop (l.length - cursedTierSize l.length) := by
    rw [cursedTier, jsSliceFrom, harg,
      jsSlice_clamp l (l.length - cursedTierSize l.length) l.length (by omega)]
    rw [List.take_of_length_le (by rw [List.length_drop]; omega)]
  have hdd : l.drop (l.length - cursedTierSize l.length)
      = (l.drop (topTierSize l.length)).drop
          (l.length - cursedTierSize l.length - topTierSize l.length) := by
    rw [List.drop_drop]
    congr 1
    omega
  have hconcat : topTier l ++ midTier l ++ cursedTier l = l := by
    rw [e1, e2, e3, List.append_assoc, hdd, List.take_append_drop,
      List.take_append_drop]
  refine ⟨hconcat, ?_⟩
  have hlen := congrArg List.length hconcat
  simp only [List.length_append] at hlen
  omega

/-- A single scored project used by the tier-partition examples. -/
def soloProject : ProjectWithAuraScore :=
  ⟨⟨"Solo", Category.L1, none, 1, none, none, none, none, none, none, none⟩,
    AuraScore.fin 0⟩

/-- C8 (counterexample): on a singleton remainder the tiers do not partition
it — the single project appears in both the top tier and the cursed tier, so
the concatenation has the project twice. -/
theorem tierPartition_singleton_counterexample :
    topTier [soloProject] ++ midTier [soloProject] ++ cursedTier [soloProject]
        = [soloProject, soloProject] ∧
      ([soloProject, soloProject] : List ProjectWithAuraScore)
        ≠ [soloProject] := by
  constructor
  · rfl
  · simp

/-- Witness for the amended C8 theorem on a two-element remainder. -/
theorem tierPartition_of_remainder_ge_two_witness :
    topTier [soloProject, soloProject] ++ midTier [soloProject, soloProject]
          ++ cursedTier [soloProject, soloProject]
        = [soloProject, soloProject] ∧
      (topTier [soloProject, soloProject]).length
          + (midTier [soloProject, soloProject]).length
          + (cursedTier [soloProject, soloProject]).length
        = ([soloProject, soloProject] : List ProjectWithAuraScore).length :=
  tierPartition_of_remainder_ge_two [soloProject, soloProject] (by norm_num)

/-- C9: the leaderboard paginates at a fixed page size of 10: for any list of
exactly 25 builders, page 3 holds exactly 5 rows and the Next button is
disabled there. -/
theorem pagination_25_builders (l : List BuilderRevenue) (h : l.length = 25) :
    (paginatedBuilders l 3).length = 5 ∧ nextDisabled l 3 = true := by
  constructor
  · rw [paginatedBuilders,
      show (((3 : ℕ) : ℤ) - 1) * (itemsPerPage : ℤ) = ((20 : ℕ) : ℤ) by
        norm_num [itemsPerPage],
      show ((3 : ℕ) : ℤ) * (itemsPerPage : ℤ) = ((30 : ℕ) : ℤ) by
        norm_num [itemsPerPage],
      jsSlice_clamp l 20 30 (by omega)]
    rw [List.length_take, List.length_drop, h]
    norm_num
  · rw [nextDisabled, totalPages, h]
    rfl

/-- A placeholder leaderboard row. -/
def placeholderBuilder : BuilderRevenue := ⟨"BLDR1", none, 0⟩

/-- Witness for C9 on a concrete list of 25 builders. -/
theorem pagination_25_builders_witness :
    (paginatedBuilders (List.replicate 25 placeholderBuilder) 3).length = 5 ∧
      nextDisabled (List.replicate 25 placeholderBuilder) 3 = true :=
  pagination_25_builders _ (by simp)

lemma builderLE_rank_asc (ranks : String → Option ℚ) (a b : BuilderRevenue) :
    builderLE ranks SortField.rank SortDirection.asc a b
      ↔ b.totalRevenue ≤ a.totalRevenue := by
  simp [builderLE, builderComparator, sub_nonpos]

lemma builderLE_rank_desc (ranks : String → Option ℚ) (a b : BuilderRevenue) :
    builderLE ranks SortField.rank SortDirection.desc a b
      ↔ a.totalRevenue ≤ b.totalRevenue := by
  simp [builderLE, builderComparator, sub_nonpos]

/-- C7 (amended): sorting with `sortField = rank` and `sortDirection = asc`
yields the builders in `totalRevenue`-descending order, but with
`sortDirection = desc` — the direction `handleSort` installs when switching
to `rank` from another field — it yields `totalRevenue`-ascending order; and
the rank shown for a row is its position in the current sort order
(`(currentPage - 1) * 10 + index + 1`), not the revenue order. -/
theorem rankSort_revenue_order (ranks : String → Option ℚ)
    (l : List BuilderRevenue) :
    (sortedBuilders ranks SortField.rank SortDirection.asc l).Pairwise
        (fun a b => b.totalRevenue ≤ a.totalRevenue) ∧
      (sortedBuilders ranks SortField.rank SortDirection.desc l).Pairwise
        (fun a b => a.totalRevenue ≤ b.totalRevenue) := by
  constructor
  · haveI : IsTotal BuilderRevenue (builderLE ranks SortField.rank SortDirection.asc) :=
      ⟨fun a b => by
        rw [builderLE_rank_asc, builderLE_rank_asc]
        exact le_total _ _⟩
    haveI : IsTrans BuilderRevenue (builderLE ranks SortField.rank SortDirection.asc) :=
      ⟨fun a b c h1 h2 => by
        rw [builderLE_rank_asc] at h1 h2 ⊢
        exact le_trans h2 h1⟩
    have hs := List.sorted_insertionSort
      (builderLE ranks SortField.rank SortDirection.asc) l
    exact List.Pairwise.imp (fun h => (builderLE_rank_asc ranks _ _).mp h) hs
  · haveI : IsTotal BuilderRevenue (builderLE ranks SortField.rank SortDirection.desc) :=
      ⟨fun a b => by
        rw [builderLE_rank_desc, builderLE_rank_desc]
        exact le_total _ _⟩
    haveI : IsTrans BuilderRevenue (builderLE ranks SortField.rank SortDirection.desc) :=
      ⟨fun a b c h1 h2 => by
        rw [builderLE_rank_desc] at h1 h2 ⊢
        exact le_trans h1 h2⟩
    have hs := List.sorted_insertionSort
      (builderLE ranks SortField.rank SortDirection.desc) l
    exact List.Pairwise.imp (fun h => (builderLE_rank_desc ranks _ _).mp h) hs

/-- A leaderboard row with the smaller revenue. -/
def builderA : BuilderRevenue := ⟨"A", none, 100⟩

/-- A leaderboard row with the larger revenue. -/
def builderB : BuilderRevenue := ⟨"B", none, 200⟩

/-- C7 (counterexample): switching the sort to `rank` from the initial state
installs direction `desc`, and sorting `[A(100), B(200)]` by `rank`/`desc`
returns the revenue-ascending list `[A, B]`, which is not
`totalRevenue`-descending; moreover after sorting by `builderName` ascending
the row displayed with rank 1 is `A`, the builder with the smaller revenue,
so the displayed rank does not reflect revenue order. -/
theorem rankSort_counterexample :
    handleSort SortField.rank initialSortState
        = ⟨SortField.rank, SortDirection.desc, 1⟩ ∧
      sortedBuilders (fun _ => none) SortField.rank SortDirection.desc
          [builderA, builderB] = [builderA, builderB] ∧
      builderA.totalRevenue < builderB.totalRevenue ∧
      ¬ (sortedBuilders (fun _ => none) SortField.rank SortDirection.desc
            [builderA, builderB]).Pairwise
          (fun a b => b.totalRevenue ≤ a.totalRevenue) ∧
      sortedBuilders (fun _ => none) SortField.builderName SortDirection.asc
          [builderA, builderB] = [builderA, builderB] ∧
      displayedRank 1 0 = 1 := by
  have hle : builderLE (fun _ => none) SortField.rank SortDirection.desc
      builderA builderB := by
    rw [builderLE_rank_desc]
    norm_num [builderA, builderB]
  have hsorted : sortedBuilders (fun _ => none) SortField.rank
      SortDirection.desc [builderA, builderB] = [builderA, builderB] := by
    simp [sortedBuilders, List.insertionSort, List.orderedInsert, hle]
  have hleName : builderLE (fun _ => none) SortField.builderName
      SortDirection.asc builderA builderB := by
    simp only [builderLE, builderComparator, displayName, builderA, builderB,
      strCompare]
    norm_num
    decide
  have hname : sortedBuilders (fun _ => none) SortField.builderName
      SortDirection.asc [builderA, builderB] = [builderA, builderB] := by
    simp [sortedBuilders, List.insertionSort, List.orderedInsert, hleName]
  refine ⟨by decide, hsorted, by norm_num [builderA, builderB], ?_, hname,
    by decide⟩
  intro hp
  rw [hsorted] at hp
  have h2 := (List.pairwise_cons.mp hp).1 builderB (by simp)
  norm_num [builderA, builderB] at h2
